import Mathlib

/-!
# Shallow embedding of the classroom-api authentication / authorization core

This file embeds, in Lean, the data model and the request handlers of the
classroom-api repository (an Express + Mongoose CRUD service for users and
books) and proves properties of the embedded code.

Conventions of the embedding:
* Mongo ObjectIds are abstracted as `Nat` (`id` stands for the document `_id`).
* A document store is a `List` of records; `find?` models `findOne`/`findById`.
* An HTTP response is its status code plus the error/success message string.
* Asynchronous handlers become pure functions from (store, request) to
  (new store, response).
-/

namespace Classroom

/-- The `role` enumeration of the User schema (`user` | `admin`, default `user`). -/
inductive Role where
  | user
  | admin
deriving DecidableEq, Repr

/-- A persisted user record (Mongo `users` collection): `_id`, `username`,
`email`, salted `password` hash, `role`. -/
structure User where
  id : Nat
  username : String
  email : String
  password : String
  role : Role
deriving DecidableEq, Repr

/-- A persisted book record, per `src/models/Book.js`: `title`, `author`,
optional `description`/`genre`/`year`/`price`, `available` (default true),
`addedBy` (owner user id), and the `timestamps` field `createdAt`. -/
structure Book where
  id : Nat
  title : String
  author : String
  description : Option String
  genre : Option String
  year : Option Nat
  price : Option Int
  available : Bool
  addedBy : Nat
  createdAt : Nat
deriving DecidableEq, Repr

/-- An HTTP response: status code and the message carried in the JSON body. -/
structure Response where
  status : Nat
  msg : String
deriving DecidableEq, Repr

/-- `Book.findById(id)`: first store record whose `_id` matches. -/
def findBookById (store : List Book) (bid : Nat) : Option Book :=
  store.find? (fun b => b.id == bid)

/-- The JSON body accepted by `PUT /api/books/:id`.  All fields are optional.
The route validators check only the seven documented fields; nothing strips
extra keys from `req.body`, so a client-supplied `addedBy` travels through to
`findByIdAndUpdate` unchanged — it is therefore part of the embedded body. -/
structure BookUpdateBody where
  title : Option String
  author : Option String
  description : Option String
  genre : Option String
  year : Option Nat
  price : Option Int
  available : Option Bool
  addedBy : Option Nat
deriving DecidableEq, Repr

/-- `new Date().getFullYear()` at process start; its exact value is irrelevant
to every claim proved below. -/
def currentYear : Nat := 2025

/-- An optional string field passes `isLength({ max: n })`. -/
def optMaxLen (s : Option String) (n : Nat) : Bool :=
  match s with
  | none => true
  | some s => s.length ≤ n

/-- The express-validator chain of `PUT /api/books/:id`: each present field
must satisfy its length / range constraint (`available` is typed `Bool` in the
embedding, so `isBoolean` always holds; `addedBy` has no validator). -/
def validUpdateBody (b : BookUpdateBody) : Bool :=
  optMaxLen b.title 200 &&
  optMaxLen b.author 100 &&
  optMaxLen b.description 1000 &&
  optMaxLen b.genre 50 &&
  (match b.year with
   | none => true
   | some y => 1000 ≤ y && y ≤ currentYear) &&
  (match b.price with
   | none => true
   | some p => 0 ≤ p)

/-- `findByIdAndUpdate`'s effect on one document: `$set` of every field
present in the update body (including a client-supplied `addedBy`). -/
def applyBookUpdate (b : Book) (body : BookUpdateBody) : Book :=
  { b with
    title := body.title.getD b.title
    author := body.author.getD b.author
    description := match body.description with
      | none => b.description
      | some d => some d
    genre := match body.genre with
      | none => b.genre
      | some g => some g
    year := match body.year with
      | none => b.year
      | some y => some y
    price := match body.price with
      | none => b.price
      | some p => some p
    available := body.available.getD b.available
    addedBy := body.addedBy.getD b.addedBy }

/-- `Book.findByIdAndUpdate(id, body, { new: true, runValidators: true })`
as a store transformation. -/
def bookFindByIdAndUpdate (store : List Book) (bid : Nat) (body : BookUpdateBody) :
    List Book :=
  store.map (fun b => if b.id == bid then applyBookUpdate b body else b)

/-- `Book.findByIdAndDelete(id)` as a store transformation. -/
def bookFindByIdAndDelete (store : List Book) (bid : Nat) : List Book :=
  store.filter (fun b => !(b.id == bid))

/-- `PUT /api/books/:id` (`src/routes/books.js`): validation, 404 on a missing
book, the inline owner-or-admin check
(`book.addedBy.toString() !== req.user._id.toString() && req.user.role !== "admin"`
denies with 403), then `findByIdAndUpdate(req.params.id, req.body)`. -/
def updateBookHandler (store : List Book) (requester : User) (bid : Nat)
    (body : BookUpdateBody) : List Book × Response :=
  if !(validUpdateBody body) then
    (store, ⟨400, "validation error"⟩)
  else
    match findBookById store bid with
    | none => (store, ⟨404, "Book not found"⟩)
    | some book =>
      if book.addedBy ≠ requester.id ∧ requester.role ≠ Role.admin then
        (store, ⟨403, "Access denied. You can only update your own books."⟩)
      else
        (bookFindByIdAndUpdate store bid body,
          ⟨200, "Book updated successfully"⟩)

/-- `DELETE /api/books/:id` (`src/routes/books.js`): 404 on a missing book,
the same inline owner-or-admin check (403 on denial), then
`findByIdAndDelete`. -/
def deleteBookHandler (store : List Book) (requester : User) (bid : Nat) :
    List Book × Response :=
  match findBookById store bid with
  | none => (store, ⟨404, "Book not found"⟩)
  | some book =>
    if book.addedBy ≠ requester.id ∧ requester.role ≠ Role.admin then
      (store, ⟨403, "Access denied. You can only delete your own books."⟩)
    else
      (bookFindByIdAndDelete store bid, ⟨200, "Book deleted successfully"⟩)

/-! ## Token Issuer / Verifier

`generateToken` lives in `src/routes/auth.js`
(`jwt.sign({ userId }, JWT_SECRET, { expiresIn: "24h" })`).  The `jsonwebtoken`
library itself is an external collaborator, so its sign/verify behaviour is
embedded from the spec's §4.2 contract: a token is its payload
(`userId` + expiration timestamp) together with a signature over the payload
keyed by the process-wide secret; verification checks the signature and then
that the current time is before the embedded expiration. -/

/-- A JWT payload: the single `userId` claim plus the standard `exp`
expiration timestamp (seconds). -/
structure TokenPayload where
  userId : Nat
  exp : Nat
deriving DecidableEq, Repr

/-- A signed token: payload plus signature. -/
structure Token where
  payload : TokenPayload
  sig : String
deriving DecidableEq, Repr

/-- Modelled from the spec: the `jsonwebtoken` library's HMAC signature, an
external collaborator not in the repository.  Only its defining property
matters: it is a function of (secret, payload), so two signatures agree
exactly when secret and payload do. -/
def jwtMac (secret : String) (p : TokenPayload) : String :=
  secret ++ "." ++ toString p.userId ++ "." ++ toString p.exp

/-- Modelled from the spec: `jwt.sign(payload, secret)`. -/
def jwtSign (secret : String) (p : TokenPayload) : Token :=
  ⟨p, jwtMac secret p⟩

/-- Verification failures of §4.2: `InvalidToken` (bad signature / malformed)
and `ExpiredToken` (expiration passed). -/
inductive VerifyError where
  | InvalidToken
  | ExpiredToken
deriving DecidableEq, Repr

/-- Modelled from the spec: `jwt.verify(token, secret)` at current time `now`:
checks signature authenticity first (`InvalidToken` on mismatch), then that
the current time is before the embedded expiration (`ExpiredToken`
otherwise), and returns the embedded `userId`. -/
def jwtVerify (secret : String) (t : Token) (now : Nat) : Except VerifyError Nat :=
  if t.sig ≠ jwtMac secret t.payload then
    Except.error VerifyError.InvalidToken
  else if t.payload.exp ≤ now then
    Except.error VerifyError.ExpiredToken
  else
    Except.ok t.payload.userId

/-- `generateToken(userId)` from `src/routes/auth.js`:
`jwt.sign({ userId }, JWT_SECRET, { expiresIn: "24h" })` — the expiration is
issuance time `now` plus 24 hours (86400 seconds). -/
def generateToken (secret : String) (userId : Nat) (now : Nat) : Token :=
  jwtSign secret ⟨userId, now + 24 * 3600⟩

/-! ## Authentication middleware -/

/-- `User.findById(id)`: first store record whose `_id` matches. -/
def findUserById (users : List User) (uid : Nat) : Option User :=
  users.find? (fun u => u.id == uid)

/-- Middleware failures of §4.4. -/
inductive AuthError where
  | MissingCredentials
  | UnauthorizedAccess
deriving DecidableEq, Repr

/-- Modelled from the spec: the `auth` middleware of `src/middleware/auth.js`,
which is not under `src/` (only its callers are).  Per §4.4 it extracts the
bearer token (`MissingCredentials` when absent), delegates to the verifier
(any verification failure fails the request), then resolves the user by the
verified id in the Credential Store, failing with `UnauthorizedAccess` when no
such user exists; on success it attaches the resolved user to the request. -/
def authMiddleware (secret : String) (users : List User) (bearer : Option Token)
    (now : Nat) : Except AuthError User :=
  match bearer with
  | none => Except.error AuthError.MissingCredentials
  | some tok =>
    match jwtVerify secret tok now with
    | Except.error _ => Except.error AuthError.UnauthorizedAccess
    | Except.ok uid =>
      match findUserById users uid with
      | none => Except.error AuthError.UnauthorizedAccess
      | some u => Except.ok u

/-! ## Registration and login (`src/routes/auth.js`) -/

/-- Abstraction of express-validator's `isEmail`; the exact accepted syntax is
irrelevant to every claim below, which only ever assume a request passed it. -/
def isEmailLike (s : String) : Bool :=
  s.data.contains '@' && s.length ≥ 3

/-- The body of `POST /api/auth/register`. -/
structure RegisterReq where
  username : String
  email : String
  password : String
deriving DecidableEq, Repr

/-- The express-validator chain of `POST /api/auth/register`: username 3–30
chars of letters/digits/underscore, valid email, password of at least 6
characters. -/
def validRegister (r : RegisterReq) : Bool :=
  3 ≤ r.username.length && r.username.length ≤ 30 &&
  r.username.data.all (fun c => c.isAlphanum || c == '_') &&
  isEmailLike r.email &&
  6 ≤ r.password.length

/-- `User.findOne({ $or: [{ email }, { username }] })`. -/
def findOneByEmailOrUsername (users : List User) (email username : String) :
    Option User :=
  users.find? (fun u => u.email == email || u.username == username)

/-- The full outcome of an auth-route request: the Credential Store after the
request, the HTTP response, and the token issued (if any). -/
structure AuthOutcome where
  store : List User
  response : Response
  token : Option Token
deriving DecidableEq, Repr

/-- `POST /api/auth/register`.  The uniqueness pre-check reads the store as it
was when `findOne` ran (`storeAtCheck`); `user.save()` runs against the store
as it is at save time (`storeAtSave`), whose unique indexes on username/email
reject a duplicate with an E11000 `DuplicateKey` error — two snapshots, so a
registration racing past the pre-check is expressible.  The handler's single
`catch` turns every thrown error, the duplicate-key one included, into
`500 "Registration failed"`.  Password hashing (the User model's pre-save
hook, not under `src/`) is the abstract parameter `hash`; `newId` is the `_id`
Mongo assigns. -/
def registerHandler (storeAtCheck storeAtSave : List User)
    (hash : String → String) (secret : String) (now : Nat) (newId : Nat)
    (r : RegisterReq) : AuthOutcome :=
  if !(validRegister r) then
    ⟨storeAtSave, ⟨400, "validation error"⟩, none⟩
  else
    match findOneByEmailOrUsername storeAtCheck r.email r.username with
    | some _ =>
      ⟨storeAtSave, ⟨400, "User with this email or username already exists"⟩, none⟩
    | none =>
      if (findOneByEmailOrUsername storeAtSave r.email r.username).isSome then
        ⟨storeAtSave, ⟨500, "Registration failed"⟩, none⟩
      else
        ⟨storeAtSave ++ [⟨newId, r.username, r.email, hash r.password, Role.user⟩],
          ⟨201, "User registered successfully"⟩,
          some (generateToken secret newId now)⟩

/-- `POST /api/auth/login`: validation, `User.findOne({ email })`,
`user.comparePassword(password)` (the User model's bcrypt compare, not under
`src/`, is the abstract parameter `compare : plaintext → stored hash → Bool`),
then token issuance.  Both failure paths return
`401 "Invalid email or password"`. -/
def loginHandler (users : List User) (compare : String → String → Bool)
    (secret : String) (now : Nat) (email password : String) : AuthOutcome :=
  if !(isEmailLike email && password ≠ "") then
    ⟨users, ⟨400, "validation error"⟩, none⟩
  else
    match users.find? (fun u => u.email == email) with
    | none => ⟨users, ⟨401, "Invalid email or password"⟩, none⟩
    | some u =>
      if compare password u.password then
        ⟨users, ⟨200, "Login successful"⟩, some (generateToken secret u.id now)⟩
      else
        ⟨users, ⟨401, "Invalid email or password"⟩, none⟩

/-! ## Profile update (`PUT /api/auth/profile`) -/

/-- The body of `PUT /api/auth/profile`.  The handler destructures only
`username` and `email` from `req.body`; any further JSON keys a client sends
are embedded as the inert `otherFields` list, which the handler never reads. -/
structure ProfileBody where
  username : Option String
  email : Option String
  otherFields : List (String × String)
deriving DecidableEq, Repr

/-- The express-validator chain of `PUT /api/auth/profile`: optional
username 3–30 chars, optional valid email. -/
def validProfileBody (b : ProfileBody) : Bool :=
  (match b.username with
   | none => true
   | some s => 3 ≤ s.length && s.length ≤ 30) &&
  (match b.email with
   | none => true
   | some s => isEmailLike s)

/-- The `updates` object built by the handler: `if (username)
updates.username = username; if (email) updates.email = email;` — JavaScript
truthiness, so an empty string is not applied.  Applied to one user record by
`findByIdAndUpdate`, it can change only `username` and `email`. -/
def applyProfileUpdate (u : User) (b : ProfileBody) : User :=
  { u with
    username := match b.username with
      | some s => if s ≠ "" then s else u.username
      | none => u.username
    email := match b.email with
      | some s => if s ≠ "" then s else u.email
      | none => u.email }

/-- `PUT /api/auth/profile`: validation, then
`User.findByIdAndUpdate(req.user._id, updates, ...)` — the id written to is
always the authenticated requester's own `_id`. -/
def updateProfileHandler (users : List User) (requesterId : Nat)
    (b : ProfileBody) : List User × Response :=
  if !(validProfileBody b) then
    (users, ⟨400, "validation error"⟩)
  else
    (users.map (fun u => if u.id == requesterId then applyProfileUpdate u b else u),
      ⟨200, "Profile updated successfully"⟩)

/-! ## Public book reads (`GET /api/books`, `GET /api/books/:id`)

These two routes are registered without the `auth` middleware
(`router.get("/", handler)`, `router.get("/:id", handler)`), so the request
carries no resolved identity.  To state that publicly, each embedded handler
takes the request's identity context (`Option User` — `none` for an anonymous
caller) and is proved never to consult it. -/

/-- The names of the routes `src/routes/books.js` registers on its router. -/
inductive BooksRoute where
  | listBooks
  | getById
  | create
  | update
  | remove
  | myBooks
  | genresList
deriving DecidableEq, Repr

/-- Whether each registration in `src/routes/books.js` places the `auth`
middleware in front of the handler. -/
def routeRequiresAuth : BooksRoute → Bool
  | BooksRoute.listBooks => false
  | BooksRoute.getById => false
  | BooksRoute.create => true
  | BooksRoute.update => true
  | BooksRoute.remove => true
  | BooksRoute.myBooks => true
  | BooksRoute.genresList => false

/-- The query string of `GET /api/books`.  `page`/`limit` carry the result of
`parseInt(...) || default`: the JavaScript `||` turns an absent, unparsable or
zero value into the default, embedded here as `0 ↦ default`.  `search` and
`genre` default to `""` (`req.query.search || ""`); `available` is absent or
the raw query string. -/
structure ListQuery where
  page : Nat
  limit : Nat
  search : String
  genre : String
  available : Option String
deriving DecidableEq, Repr

/-- The Mongo `$text` search over the text index on
(title, author, description): embedded as a substring match on those three
fields — its exact matching semantics are external (index behaviour) and
irrelevant to the claims below. -/
def textMatch (search : String) (b : Book) : Bool :=
  (b.title.splitOn search).length > 1 || b.title == search ||
  (b.author.splitOn search).length > 1 || b.author == search ||
  (match b.description with
   | none => false
   | some d => (d.splitOn search).length > 1 || d == search)

/-- The filter document built by `GET /api/books`: `$text` when `search` is
truthy, `genre` equality when `genre` is truthy, `available === "true"` when
the `available` query parameter is present. -/
def matchesListQuery (q : ListQuery) (b : Book) : Bool :=
  (q.search == "" || textMatch q.search b) &&
  (q.genre == "" || b.genre == some q.genre) &&
  (match q.available with
   | none => true
   | some s => b.available == (s == "true"))

/-- Insert into a list kept sorted by `createdAt` descending. -/
def insertByCreatedDesc (b : Book) : List Book → List Book
  | [] => [b]
  | c :: rest =>
    if c.createdAt ≤ b.createdAt then b :: c :: rest
    else c :: insertByCreatedDesc b rest

/-- `.sort({ createdAt: -1 })`: newest first. -/
def sortByCreatedDesc : List Book → List Book
  | [] => []
  | b :: rest => insertByCreatedDesc b (sortByCreatedDesc rest)

/-- The JSON body of a successful `GET /api/books`: the page of books plus
the pagination object. -/
structure BooksPage where
  status : Nat
  books : List Book
  page : Nat
  limit : Nat
  total : Nat
  pages : Nat
deriving DecidableEq, Repr

/-- `GET /api/books`: defaults, filter, sort by `createdAt` descending,
`skip((page-1)*limit)`, `limit(limit)`, `countDocuments` for the total and
`Math.ceil(total / limit)` for the page count.  `ident` is the request's
identity context, which the handler never reads. -/
def getBooksHandler (store : List Book) (_ident : Option User) (q : ListQuery) :
    BooksPage :=
  let page := if q.page == 0 then 1 else q.page
  let lim := if q.limit == 0 then 10 else q.limit
  let filtered := store.filter (matchesListQuery q)
  let items := ((sortByCreatedDesc filtered).drop ((page - 1) * lim)).take lim
  let total := filtered.length
  ⟨200, items, page, lim, total, (total + lim - 1) / lim⟩

/-- `GET /api/books/:id`: `findById`, 404 when absent, otherwise the book.
`ident` is the request's identity context, which the handler never reads. -/
def getBookHandler (store : List Book) (_ident : Option User) (bid : Nat) :
    Response × Option Book :=
  match findBookById store bid with
  | none => (⟨404, "Book not found"⟩, none)
  | some book => (⟨200, "ok"⟩, some book)

/-! ## Sample data used by witness and counterexample theorems -/

/-- A sample regular user. -/
def aliceU : User := ⟨1, "alice", "alice@x.com", "h:secret1", Role.user⟩

/-- A second regular user, not the owner of `dune`. -/
def bobU : User := ⟨2, "bob", "bob@x.com", "h:secret2", Role.user⟩

/-- A sample administrator. -/
def adminU : User := ⟨3, "root", "root@x.com", "h:secret3", Role.admin⟩

/-- A sample book owned by `aliceU`. -/
def dune : Book := ⟨10, "Dune", "Frank Herbert", none, some "SciFi", some 1965,
  some 10, true, 1, 100⟩

/-- An update body with every field absent. -/
def emptyBody : BookUpdateBody := ⟨none, none, none, none, none, none, none, none⟩

/-- An update body whose only field is a client-supplied `addedBy`. -/
def stealBody : BookUpdateBody := ⟨none, none, none, none, none, none, none, some 2⟩

/-- A concrete stand-in for the User model's password hash (bcrypt is an
external collaborator; witnesses only need some function). -/
def sampleHash (s : String) : String := "h:" ++ s

/-- The matching stand-in for `comparePassword`. -/
def sampleCompare (plaintext stored : String) : Bool := stored == "h:" ++ plaintext

/-! ## Claims -/

/-- C1: a book update or delete by an authenticated requester on an existing
book is permitted (status 200) iff the requester is the book's owner
(`addedBy`) or has the `admin` role; in every other case the handler answers
403 Forbidden and leaves the store unchanged. -/
theorem bookWrite_permitted_iff_owner_or_admin
    (store : List Book) (requester : User) (bid : Nat) (body : BookUpdateBody)
    (book : Book)
    (hval : validUpdateBody body = true)
    (hfind : findBookById store bid = some book) :
    (((updateBookHandler store requester bid body).2.status = 200) ↔
        (book.addedBy = requester.id ∨ requester.role = Role.admin))
    ∧ (((deleteBookHandler store requester bid).2.status = 200) ↔
        (book.addedBy = requester.id ∨ requester.role = Role.admin))
    ∧ (¬(book.addedBy = requester.id ∨ requester.role = Role.admin) →
        (updateBookHandler store requester bid body).2.status = 403
        ∧ (updateBookHandler store requester bid body).1 = store
        ∧ (deleteBookHandler store requester bid).2.status = 403
        ∧ (deleteBookHandler store requester bid).1 = store) := by
  by_cases h : book.addedBy = requester.id ∨ requester.role = Role.admin
  · have h2 : ¬(book.addedBy ≠ requester.id ∧ requester.role ≠ Role.admin) := by
      tauto
    simp [updateBookHandler, deleteBookHandler, hval, hfind, h2, h]
  · have h2 : book.addedBy ≠ requester.id ∧ requester.role ≠ Role.admin := by
      tauto
    simp [updateBookHandler, deleteBookHandler, hval, hfind, h2, h]

/-- Witness for C1 at a concrete input: `bobU` (id 2, role `user`) against the
book `dune` owned by user 1. -/
theorem bookWrite_permitted_iff_owner_or_admin_witness :
    validUpdateBody emptyBody = true
    ∧ findBookById [dune] 10 = some dune
    ∧ ((((updateBookHandler [dune] bobU 10 emptyBody).2.status = 200) ↔
          (dune.addedBy = bobU.id ∨ bobU.role = Role.admin))
      ∧ (((deleteBookHandler [dune] bobU 10).2.status = 200) ↔
          (dune.addedBy = bobU.id ∨ bobU.role = Role.admin))
      ∧ (¬(dune.addedBy = bobU.id ∨ bobU.role = Role.admin) →
          (updateBookHandler [dune] bobU 10 emptyBody).2.status = 403
          ∧ (updateBookHandler [dune] bobU 10 emptyBody).1 = [dune]
          ∧ (deleteBookHandler [dune] bobU 10).2.status = 403
          ∧ (deleteBookHandler [dune] bobU 10).1 = [dune])) :=
  ⟨by decide, by decide,
    bookWrite_permitted_iff_owner_or_admin [dune] bobU 10 emptyBody dune
      (by decide) (by decide)⟩

/-- Helper for C2: when the update body carries no `addedBy` field,
`applyBookUpdate` leaves `addedBy` alone. -/
theorem applyBookUpdate_addedBy_of_none (b : Book) (body : BookUpdateBody)
    (h : body.addedBy = none) : (applyBookUpdate b body).addedBy = b.addedBy := by
  simp [applyBookUpdate, h]

/-- Helper for C2: `findByIdAndUpdate` with an `addedBy`-free body preserves
the owner of every stored book. -/
theorem bookFindByIdAndUpdate_addedBy_of_none (store : List Book) (bid : Nat)
    (body : BookUpdateBody) (h : body.addedBy = none) :
    (bookFindByIdAndUpdate store bid body).map Book.addedBy =
      store.map Book.addedBy := by
  induction store with
  | nil => rfl
  | cons b rest ih =>
    simp only [bookFindByIdAndUpdate, List.map_cons] at ih ⊢
    rw [ih]
    by_cases hb : b.id == bid
    · simp only [hb, if_true, applyBookUpdate_addedBy_of_none b body h]
    · simp only [hb, if_false, Bool.false_eq_true]

/-- C2 counterexample: the owner of `dune` (user 1) sends an accepted update
whose body contains `addedBy: 2`; the handler answers 200 and the stored
book's owner reference changes from 1 to 2 — `findByIdAndUpdate(req.params.id,
req.body)` applies a client-supplied `addedBy`. -/
theorem bookUpdate_addedBy_mass_assignment :
    (updateBookHandler [dune] aliceU 10 stealBody).2.status = 200
    ∧ findBookById (updateBookHandler [dune] aliceU 10 stealBody).1 10 =
        some { dune with addedBy := 2 }
    ∧ dune.addedBy = 1 := by decide

/-- C2 amended: for every accepted update whose request body does not itself
contain an `addedBy` field, every stored book's owner reference after the
update equals its value before the update. -/
theorem bookUpdate_addedBy_immutable_without_addedBy_field
    (store : List Book) (requester : User) (bid : Nat) (body : BookUpdateBody)
    (h : body.addedBy = none) :
    ((updateBookHandler store requester bid body).1).map Book.addedBy =
      store.map Book.addedBy := by
  unfold updateBookHandler
  by_cases hv : validUpdateBody body
  · simp only [hv, Bool.not_true, Bool.false_eq_true, if_false]
    cases hfind : findBookById store bid with
    | none => rfl
    | some book =>
      by_cases hd : book.addedBy ≠ requester.id ∧ requester.role ≠ Role.admin
      · simp [hd]
      · simp [hd, bookFindByIdAndUpdate_addedBy_of_none store bid body h]
  · simp [hv]

/-- Witness for the amended C2 at a concrete input: `aliceU` updates `dune`
with the field-free body. -/
theorem bookUpdate_addedBy_immutable_witness :
    emptyBody.addedBy = none
    ∧ ((updateBookHandler [dune] aliceU 10 emptyBody).1).map Book.addedBy =
        [dune].map Book.addedBy :=
  ⟨by decide,
    bookUpdate_addedBy_immutable_without_addedBy_field [dune] aliceU 10 emptyBody
      (by decide)⟩

/-- A registration request for `alice`. -/
def aliceReq : RegisterReq := ⟨"alice", "alice@x.com", "secret1"⟩

/-- C3 counterexample: the pre-check ran on an empty store, then a racing
registration made `alice` exist by save time; the store surfaces the
duplicate-key failure and the handler's catch-all answers the generic
`500 "Registration failed"`, not a duplicate-username/email Conflict — the
core does assume its pre-check was race-free. -/
theorem register_duplicateKey_race_yields_500 :
    registerHandler [] [aliceU] sampleHash "sec" 0 8 aliceReq =
      ⟨[aliceU], ⟨500, "Registration failed"⟩, none⟩
    ∧ (⟨(500 : Nat), "Registration failed"⟩ : Response) ≠
        ⟨400, "User with this email or username already exists"⟩ := by decide

/-- C3 amended: when the Credential Store surfaces a DuplicateKey-style
failure while persisting a new user (the pre-check saw no duplicate, the save
hit one), registration reports the generic `500 "Registration failed"`
internal error and issues no token; the user-facing duplicate Conflict (400)
is produced only by the handler's own pre-check. -/
theorem register_duplicateKey_race_generic_failure
    (storeAtCheck storeAtSave : List User) (hash : String → String)
    (secret : String) (now newId : Nat) (r : RegisterReq)
    (hval : validRegister r = true)
    (hpre : findOneByEmailOrUsername storeAtCheck r.email r.username = none)
    (hdup : (findOneByEmailOrUsername storeAtSave r.email r.username).isSome = true) :
    registerHandler storeAtCheck storeAtSave hash secret now newId r =
      ⟨storeAtSave, ⟨500, "Registration failed"⟩, none⟩ := by
  simp [registerHandler, hval, hpre, hdup]

/-- Witness for the amended C3 at a concrete input. -/
theorem register_duplicateKey_race_generic_failure_witness :
    validRegister aliceReq = true
    ∧ findOneByEmailOrUsername [] aliceReq.email aliceReq.username = none
    ∧ (findOneByEmailOrUsername [aliceU] aliceReq.email aliceReq.username).isSome
        = true
    ∧ registerHandler [] [aliceU] sampleHash "sec" 0 8 aliceReq =
        ⟨[aliceU], ⟨500, "Registration failed"⟩, none⟩ :=
  ⟨by decide, by decide, by decide,
    register_duplicateKey_race_generic_failure [] [aliceU] sampleHash "sec" 0 8
      aliceReq (by decide) (by decide) (by decide)⟩

/-- Helper shared by the token claims: a token issued for `u` at `now` and
verified with the same secret before expiry yields `u`. -/
theorem jwtVerify_generateToken_ok (secret : String) (u now t : Nat)
    (h : t < now + 24 * 3600) :
    jwtVerify secret (generateToken secret u now) t = Except.ok u := by
  simp only [jwtVerify, generateToken, jwtSign, ne_eq, not_true_eq_false,
    if_false, ite_eq_right_iff]
  intro hle
  omega

/-- C4: verifying a token issued for user id `u` yields `u` whenever
verification happens before expiry, and the issued token's payload carries
`u` and an expiration equal to issuance time plus 24 hours. -/
theorem token_roundtrip (secret : String) (u now t : Nat)
    (h : t < now + 24 * 3600) :
    jwtVerify secret (generateToken secret u now) t = Except.ok u
    ∧ (generateToken secret u now).payload.userId = u
    ∧ (generateToken secret u now).payload.exp = now + 24 * 3600 :=
  ⟨jwtVerify_generateToken_ok secret u now t h, rfl, rfl⟩

/-- Witness for C4 at a concrete input. -/
theorem token_roundtrip_witness :
    (50 : Nat) < 0 + 24 * 3600
    ∧ (jwtVerify "sec" (generateToken "sec" 42 0) 50 = Except.ok 42
      ∧ (generateToken "sec" 42 0).payload.userId = 42
      ∧ (generateToken "sec" 42 0).payload.exp = 0 + 24 * 3600) :=
  ⟨by decide, token_roundtrip "sec" 42 0 50 (by decide)⟩

/-- C5: verifying an issued token strictly later than issuance time plus
24 hours fails with `ExpiredToken` — not with `InvalidToken`, and not
successfully. -/
theorem token_expired_after_24h (secret : String) (u now t : Nat)
    (h : now + 24 * 3600 < t) :
    jwtVerify secret (generateToken secret u now) t =
      Except.error VerifyError.ExpiredToken := by
  have hle : now + 24 * 3600 ≤ t := Nat.le_of_lt h
  simp [jwtVerify, generateToken, jwtSign, hle]

/-- Witness for C5 at a concrete input. -/
theorem token_expired_after_24h_witness :
    (0 : Nat) + 24 * 3600 < 90000
    ∧ jwtVerify "sec" (generateToken "sec" 42 0) 90000 =
        Except.error VerifyError.ExpiredToken :=
  ⟨by decide, token_expired_after_24h "sec" 42 0 90000 (by decide)⟩

/-- C6: a registration request (passing field validation) whose username or
email already belongs to a stored user gets the 400 Conflict response, the
store is unchanged (no user created), and no token is issued. -/
theorem register_conflict_no_effect (store : List User)
    (hash : String → String) (secret : String) (now newId : Nat)
    (r : RegisterReq)
    (hval : validRegister r = true)
    (hexist : (findOneByEmailOrUsername store r.email r.username).isSome = true) :
    registerHandler store store hash secret now newId r =
      ⟨store, ⟨400, "User with this email or username already exists"⟩, none⟩ := by
  obtain ⟨u, hu⟩ := Option.isSome_iff_exists.mp hexist
  simp [registerHandler, hval, hu]

/-- Witness for C6 at a concrete input: registering `alice` while `aliceU`
already holds the username and email. -/
theorem register_conflict_no_effect_witness :
    validRegister aliceReq = true
    ∧ (findOneByEmailOrUsername [aliceU] aliceReq.email aliceReq.username).isSome
        = true
    ∧ registerHandler [aliceU] [aliceU] sampleHash "sec" 0 8 aliceReq =
        ⟨[aliceU], ⟨400, "User with this email or username already exists"⟩, none⟩ :=
  ⟨by decide, by decide,
    register_conflict_no_effect [aliceU] sampleHash "sec" 0 8 aliceReq
      (by decide) (by decide)⟩

/-- C7: a correctly signed, unexpired token issued for user id `u` never
authenticates once `u` is absent from the Credential Store — the middleware
fails with `UnauthorizedAccess`. -/
theorem stale_token_unauthorized (secret : String) (users : List User)
    (u now t : Nat)
    (hfresh : t < now + 24 * 3600)
    (hdel : findUserById users u = none) :
    authMiddleware secret users (some (generateToken secret u now)) t =
      Except.error AuthError.UnauthorizedAccess := by
  simp [authMiddleware, jwtVerify_generateToken_ok secret u now t hfresh, hdel]

/-- Witness for C7 at a concrete input: a fresh token for user 42 presented
against a store holding only `aliceU` (id 1). -/
theorem stale_token_unauthorized_witness :
    (50 : Nat) < 0 + 24 * 3600
    ∧ findUserById [aliceU] 42 = none
    ∧ authMiddleware "sec" [aliceU] (some (generateToken "sec" 42 0)) 50 =
        Except.error AuthError.UnauthorizedAccess :=
  ⟨by decide, by decide,
    stale_token_unauthorized "sec" [aliceU] 42 0 50 (by decide) (by decide)⟩

/-- Helper for C8: mapping a record field that `applyProfileUpdate` leaves
untouched across the store update changes nothing. -/
theorem profileStore_map_field_eq {α : Type} (users : List User) (rid : Nat)
    (b : ProfileBody) (f : User → α)
    (hf : ∀ u, f (applyProfileUpdate u b) = f u) :
    (users.map (fun u => if u.id == rid then applyProfileUpdate u b else u)).map f
      = users.map f := by
  induction users with
  | nil => rfl
  | cons u rest ih =>
    simp only [List.map_cons]
    rw [ih]
    by_cases h : u.id == rid
    · simp [h, hf]
    · simp [h]

/-- Helper: `filter` drops a head the predicate rejects (explicit arguments,
so `rw` needs no higher-order unification). -/
theorem filter_cons_false {α : Type} (p : α → Bool) (x : α) (l : List α)
    (h : p x = false) : (x :: l).filter p = l.filter p := by
  simp [List.filter_cons, h]

/-- Helper: `filter` keeps a head the predicate accepts (explicit arguments). -/
theorem filter_cons_true {α : Type} (p : α → Bool) (x : α) (l : List α)
    (h : p x = true) : (x :: l).filter p = x :: l.filter p := by
  simp [List.filter_cons, h]

/-- Helper for C8: the records of users other than the requester are exactly
the same before and after the store update. -/
theorem profileStore_filter_others_eq (users : List User) (rid : Nat)
    (b : ProfileBody) :
    ((users.map (fun u => if u.id == rid then applyProfileUpdate u b else u)).filter
        (fun u => !(u.id == rid)))
      = users.filter (fun u => !(u.id == rid)) := by
  induction users with
  | nil => rfl
  | cons u rest ih =>
    by_cases h : (u.id == rid) = true
    · have hx : (fun v : User => !(v.id == rid)) (applyProfileUpdate u b) = false := by
        have hrfl : (applyProfileUpdate u b).id = u.id := rfl
        simp [hrfl, h]
      have hu : (fun v : User => !(v.id == rid)) u = false := by simp [h]
      rw [List.map_cons, if_pos h,
        filter_cons_false (fun v : User => !(v.id == rid)) (applyProfileUpdate u b)
          _ hx,
        filter_cons_false (fun v : User => !(v.id == rid)) u _ hu]
      exact ih
    · have hu : (fun v : User => !(v.id == rid)) u = true := by simp [h]
      rw [List.map_cons, if_neg h,
        filter_cons_true (fun v : User => !(v.id == rid)) u _ hu,
        filter_cons_true (fun v : User => !(v.id == rid)) u _ hu, ih]

/-- C8: a profile update writes only to the requester's own record — every
other user's record is bitwise unchanged — and can change only `username` and
`email`: the `id`, `role` and `password` columns of the store are the same
after the operation as before, whatever the request body contains. -/
theorem profile_update_frame (users : List User) (requesterId : Nat)
    (b : ProfileBody) :
    ((updateProfileHandler users requesterId b).1).map User.id = users.map User.id
    ∧ ((updateProfileHandler users requesterId b).1).map User.role =
        users.map User.role
    ∧ ((updateProfileHandler users requesterId b).1).map User.password =
        users.map User.password
    ∧ ((updateProfileHandler users requesterId b).1).filter
          (fun u => !(u.id == requesterId))
        = users.filter (fun u => !(u.id == requesterId)) := by
  unfold updateProfileHandler
  by_cases hv : validProfileBody b
  · simp only [hv, Bool.not_true, Bool.false_eq_true, if_false]
    exact ⟨profileStore_map_field_eq users requesterId b User.id fun u => rfl,
      profileStore_map_field_eq users requesterId b User.role fun u => rfl,
      profileStore_map_field_eq users requesterId b User.password fun u => rfl,
      profileStore_filter_others_eq users requesterId b⟩
  · simp [hv]

/-- C9: the two book read routes are registered without the `auth`
middleware, their results do not depend on the request's identity context,
and they never answer 401 (the list read always answers 200; the single read
answers 200 or 404). -/
theorem book_reads_public (store : List Book) (q : ListQuery) (bid : Nat)
    (ident1 ident2 : Option User) :
    routeRequiresAuth BooksRoute.listBooks = false
    ∧ routeRequiresAuth BooksRoute.getById = false
    ∧ getBooksHandler store ident1 q = getBooksHandler store ident2 q
    ∧ getBookHandler store ident1 bid = getBookHandler store ident2 bid
    ∧ (getBooksHandler store ident1 q).status = 200
    ∧ ((getBookHandler store ident1 bid).1.status = 200
        ∨ (getBookHandler store ident1 bid).1.status = 404) := by
  refine ⟨rfl, rfl, rfl, rfl, rfl, ?_⟩
  unfold getBookHandler
  cases findBookById store bid
  · exact Or.inr rfl
  · exact Or.inl rfl

/-- C10: for syntactically valid login requests, the failure response when
the email matches no stored user is the very same value — status 401, message
"Invalid email or password", no token — as the failure response when the
email matches a user whose password does not verify; the login result does
not reveal whether an account exists. -/
theorem login_failure_indistinguishable
    (users1 users2 : List User) (cmp1 cmp2 : String → String → Bool)
    (secret1 secret2 : String) (now1 now2 : Nat)
    (email1 pw1 email2 pw2 : String) (u : User)
    (hval1 : (isEmailLike email1 && pw1 ≠ "") = true)
    (hval2 : (isEmailLike email2 && pw2 ≠ "") = true)
    (hmiss : users1.find? (fun w => w.email == email1) = none)
    (hhit : users2.find? (fun w => w.email == email2) = some u)
    (hbad : cmp2 pw2 u.password = false) :
    (loginHandler users1 cmp1 secret1 now1 email1 pw1).response =
        ⟨401, "Invalid email or password"⟩
    ∧ (loginHandler users2 cmp2 secret2 now2 email2 pw2).response =
        ⟨401, "Invalid email or password"⟩
    ∧ (loginHandler users1 cmp1 secret1 now1 email1 pw1).response =
        (loginHandler users2 cmp2 secret2 now2 email2 pw2).response
    ∧ (loginHandler users1 cmp1 secret1 now1 email1 pw1).token = none
    ∧ (loginHandler users2 cmp2 secret2 now2 email2 pw2).token = none := by
  have h1 : isEmailLike email1 = true ∧ pw1 ≠ "" := by simpa using hval1
  have h2 : isEmailLike email2 = true ∧ pw2 ≠ "" := by simpa using hval2
  simp [loginHandler, h1.1, h1.2, h2.1, h2.2, hmiss, hhit, hbad]

/-- Witness for C10 at a concrete input: logging in with an email no user has
versus logging in as `aliceU` with a wrong password. -/
theorem login_failure_indistinguishable_witness :
    (isEmailLike "ghost@x.com" && "pw" ≠ "") = true
    ∧ (isEmailLike "alice@x.com" && "wrong" ≠ "") = true
    ∧ ([aliceU].find? (fun w => w.email == "ghost@x.com") = none)
    ∧ ([aliceU].find? (fun w => w.email == "alice@x.com") = some aliceU)
    ∧ sampleCompare "wrong" aliceU.password = false
    ∧ ((loginHandler [aliceU] sampleCompare "sec" 0 "ghost@x.com" "pw").response =
          ⟨401, "Invalid email or password"⟩
      ∧ (loginHandler [aliceU] sampleCompare "sec" 0 "alice@x.com" "wrong").response =
          ⟨401, "Invalid email or password"⟩
      ∧ (loginHandler [aliceU] sampleCompare "sec" 0 "ghost@x.com" "pw").response =
          (loginHandler [aliceU] sampleCompare "sec" 0 "alice@x.com" "wrong").response
      ∧ (loginHandler [aliceU] sampleCompare "sec" 0 "ghost@x.com" "pw").token = none
      ∧ (loginHandler [aliceU] sampleCompare "sec" 0 "alice@x.com" "wrong").token =
          none) :=
  ⟨by decide, by decide, by decide, by decide, by decide,
    login_failure_indistinguishable [aliceU] [aliceU] sampleCompare sampleCompare
      "sec" "sec" 0 0 "ghost@x.com" "pw" "alice@x.com" "wrong" aliceU
      (by decide) (by decide) (by decide) (by decide) (by decide)⟩

end Classroom
